import Mathlib

/-!
Stratum height monitor: the wire decoder, the height-change handler and the
connection life cycle.

A shallow embedding of `fetchers/HeightFetcher.go` and `models/stratum.go`.

* An inbound line is a JSON document (`JSON`), or `none` when the bytes are not
  syntactically valid JSON.
* A value that `encoding/json` stores in an `interface{}` is represented by the
  JSON value it was made from: `null` is `nil`, a JSON boolean is a Go `bool`,
  a JSON number is a Go `float64`, a JSON string is a Go `string`, an array is
  `[]interface{}`, an object is `map[string]interface{}`.
* A `float64` is kept as the number literal it was parsed from; float
  arithmetic and float formatting are not part of the embedding. The range
  check of `strconv.ParseFloat` is: decoding a number into an `interface{}`
  fails when the literal rounds to an infinite `float64`.
* `Unmarshal` returns `Except Fault Reply`: `Fault` distinguishes an error
  value returned by the function from a run-time panic raised inside it.
* The network is an input: `Network` tells which calls of `net.Dial` succeed,
  and every iteration of `Listen` is given what its read returns
  (`ReadResult`). A `Session` carries the fetcher, the number of dials made
  and the trace of observable events; sleeps and log records are left out.
-/

set_option exponentiation.threshold 2048

namespace StratumMonitor

/-! ## JSON documents -/

/-- A JSON number literal: `uint n` is a literal made of decimal digits only
(`0`, `7`, `29`); `other` is any literal with a sign, a fraction or an
exponent, given by its sign, its decimal mantissa and its decimal exponent:
its value is `mantissa * 10 ^ exp10`, negated when `neg` holds (`-1` is
`other true 1 0`, `2.0` is `other false 20 (-1)`, `1e999` is
`other false 1 999`). -/
inductive JNumber where
  | uint (n : Nat)
  | other (neg : Bool) (mantissa : Nat) (exp10 : Int)
  deriving DecidableEq, Repr

/-- A parsed JSON document. Object members keep their order and may repeat a
key. -/
inductive JSON where
  | null
  | bool (b : Bool)
  | num (n : JNumber)
  | str (s : String)
  | arr (xs : List JSON)
  | obj (ms : List (String × JSON))
  deriving Repr

/-- The least magnitude that `strconv.ParseFloat(s, 64)` rejects with a range
error: half-way between the largest `float64`, `2^1024 - 2^971`, and `2^1024`
(a magnitude from there on rounds to infinity). -/
def float64Overflow : Nat := 2 ^ 1024 - 2 ^ 970

/-- The literal is accepted by `strconv.ParseFloat(s, 64)`: its magnitude is
below `float64Overflow`. A literal too small for a `float64` is accepted and
rounds to zero. -/
def JNumber.inFloat64Range : JNumber → Bool
  | .uint n => decide (n < float64Overflow)
  | .other _ m e => decide (m * 10 ^ e.toNat < float64Overflow * 10 ^ (-e).toNat)

mutual
/-- Every number literal inside the value is within `float64` range: the
condition under which `encoding/json` decodes the value into an `interface{}`
without error. -/
def JSON.floatsInRange : JSON → Bool
  | .num n => n.inFloat64Range
  | .arr xs => floatsInRangeList xs
  | .obj ms => floatsInRangeMembers ms
  | _ => true
/-- Every element of the list satisfies `JSON.floatsInRange`. -/
def floatsInRangeList : List JSON → Bool
  | [] => true
  | x :: xs => x.floatsInRange && floatsInRangeList xs
/-- Every member value satisfies `JSON.floatsInRange`. -/
def floatsInRangeMembers : List (String × JSON) → Bool
  | [] => true
  | kv :: ms => kv.2.floatsInRange && floatsInRangeMembers ms
end

/-! ## Outcomes -/

/-- How a call can fail: with a returned error, or with a run-time panic. -/
inductive Fault where
  /-- An error returned by `encoding/json` (syntax or type mismatch). -/
  | jsonError
  /-- The package error `errJsonType` ("unexpected type in json"). -/
  | errJsonType
  /-- Run-time panic: index `i` out of range for a slice of length `len`. -/
  | indexOutOfRange (i len : Nat)
  /-- Run-time panic: a single-value type assertion on the wrong dynamic type. -/
  | interfaceConversion
  /-- Run-time panic: a method called on a nil connection or a nil reader. -/
  | nilDereference
  deriving DecidableEq, Repr

/-- The fault is an error value handed back to the caller. -/
def Fault.isError : Fault → Bool
  | .jsonError => true
  | .errJsonType => true
  | _ => false

/-- The fault is a run-time panic. -/
def Fault.isPanic : Fault → Bool
  | .indexOutOfRange _ _ => true
  | .interfaceConversion => true
  | .nilDereference => true
  | _ => false

/-! ## models/stratum.go -/

/-- The type `models.StratumErr`. `Result` is a `*json.RawMessage`. -/
structure StratumErr where
  ErrNum : Nat := 0
  ErrStr : String := ""
  Result : Option JSON := none
  deriving Repr

/-- The type `models.BasicReply`; `ID` holds the `uint64` request id. -/
structure BasicReply where
  ID : Nat
  Error : StratumErr := {}
  Result : Bool
  deriving Repr

/-- The type `models.StratumRsp`; `ID` is an `interface{}` (`JSON.null` is
`nil`), `Result` a `*json.RawMessage`. -/
structure StratumRsp where
  Method : String := ""
  ID : JSON := .null
  Error : StratumErr := {}
  Result : Option JSON := none
  deriving Repr

/-- The type `models.NotifyRes`. -/
structure NotifyRes where
  JobID : String := ""
  Hash : String := ""
  CoinbaseTX1 : String := ""
  CoinbaseTX2 : String := ""
  MerkleBranches : List String := []
  BlockVersion : String := ""
  Nbits : String := ""
  Ntime : String := ""
  CleanJobs : Bool := false
  deriving DecidableEq, Repr

/-- The type `models.SubscribeReply`; the `float64` length is kept as its
literal. -/
structure SubscribeReply where
  SubscribeID : String := ""
  ExtraNonce1 : String := ""
  ExtraNonce2Length : JNumber := .uint 0
  deriving DecidableEq, Repr

/-- The `models.StratumMsg` built by the `mining.set_difficulty` branch: its
`Params` is the one-element list holding
`strconv.FormatFloat(difficulty, 'E', -1, 32)` and its `ID` stays `nil`. Float
formatting is not modelled, so the number that gets formatted is kept. -/
structure DifficultyMsg where
  Method : String
  Difficulty : JNumber
  deriving DecidableEq, Repr

/-- What `Unmarshal` returns in its `interface{}` result, by dynamic type. -/
inductive Reply where
  /-- A `*models.BasicReply`: the reply to `mining.authorize`. -/
  | basicReply (r : BasicReply)
  /-- A `*models.SubscribeReply`. -/
  | subscribeReply (r : SubscribeReply)
  /-- A `models.NotifyRes`. -/
  | notifyRes (r : NotifyRes)
  /-- A `models.StratumMsg` for `mining.set_difficulty`. -/
  | stratumMsg (r : DifficultyMsg)
  /-- A `*models.StratumRsp`: the fallback envelope. -/
  | stratumRsp (r : StratumRsp)
  deriving Repr

/-! ## fetchers/HeightFetcher.go: the session record -/

/-- The fields of `models.StratumServersParam` that the fetcher reads;
`ServerType` is the Go field `Type`. -/
structure StratumServersParam where
  Username : String := ""
  Password : String := ""
  CoinType : String := ""
  ServerType : String := ""
  deriving DecidableEq, Repr

/-- The type `PoolHeightFetcher`: `Height` is an `int64`, the three ids are
`uint64`. `Conn` and `Reader` are `none` when nil; a live connection is named
by the number of the `net.Dial` call that opened it, and a reader by the
connection it reads from. -/
structure PoolHeightFetcher where
  Param : StratumServersParam := {}
  Address : String := ""
  Conn : Option Nat := none
  Reader : Option Nat := none
  Height : Int := 0
  ID : Nat := 0
  AuthID : Nat := 0
  SubID : Nat := 0
  deriving DecidableEq, Repr

/-! ## encoding/json, as far as `Unmarshal` uses it -/

/-- The value `message[key]` of the `map[string]json.RawMessage` decoded from
the members `ms`: the last member with that key, `none` when there is none. -/
def rawGet : List (String × JSON) → String → Option JSON
  | [], _ => none
  | (k, v) :: ms, key =>
    match rawGet ms key with
    | some w => some w
    | none => if k = key then some v else none

/-- The call `json.Unmarshal(blob, &message)` for a
`map[string]json.RawMessage`: an object gives its members, `null` leaves the
map nil, anything else is an error. -/
def unmarshalMessage : Option JSON → Except Fault (List (String × JSON))
  | some (.obj ms) => .ok ms
  | some .null => .ok []
  | _ => .error .jsonError

/-- The call `json.Unmarshal(raw, &s)` for a fresh `string`. An absent raw
message is empty input, a syntax error; `null` leaves the zero value. -/
def unmarshalString : Option JSON → Except Fault String
  | some (.str s) => .ok s
  | some .null => .ok ""
  | _ => .error .jsonError

/-- The call `json.Unmarshal(raw, &n)` for a fresh `uint64`: only an unsigned
integer literal below `2^64` is accepted; `null` leaves zero. -/
def unmarshalUint64 : Option JSON → Except Fault Nat
  | some (.num (.uint n)) => if n < 2 ^ 64 then .ok n else .error .jsonError
  | some .null => .ok 0
  | _ => .error .jsonError

/-- The call `json.Unmarshal(raw, &b)` for a fresh `bool`. -/
def unmarshalBool : Option JSON → Except Fault Bool
  | some (.bool b) => .ok b
  | some .null => .ok false
  | _ => .error .jsonError

/-- The call `json.Unmarshal(raw, &xs)` for a fresh `[]interface{}`: an array
gives a non-nil slice (also when empty), `null` leaves the slice nil
(`none`). Every number of the array, at any depth, is converted by
`strconv.ParseFloat`; when one of them is out of range the call returns an
error. -/
def unmarshalSlice : Option JSON → Except Fault (Option (List JSON))
  | some (.arr xs) => if floatsInRangeList xs then .ok (some xs) else .error .jsonError
  | some .null => .ok none
  | _ => .error .jsonError

/-- The index expression `xs[i]` on a slice; a nil slice has length 0. -/
def index (xs : Option (List JSON)) (i : Nat) : Except Fault JSON :=
  match (xs.getD [])[i]? with
  | some v => .ok v
  | none => .error (.indexOutOfRange i (xs.getD []).length)

/-- The assertion `v.(string)` in its comma-ok form. -/
def assertString : JSON → Option String
  | .str s => some s
  | _ => none

/-- The assertion `v.(bool)` in its comma-ok form. -/
def assertBool : JSON → Option Bool
  | .bool b => some b
  | _ => none

/-- The assertion `v.(float64)` in its comma-ok form. -/
def assertFloat64 : JSON → Option JNumber
  | .num n => some n
  | _ => none

/-- The assertion `v.(uint64)` in its comma-ok form. `encoding/json` stores
every number of an `interface{}` as a `float64`, so no decoded value has the
dynamic type `uint64`. -/
def assertUint64 : JSON → Option Nat
  | _ => none

/-- A single-value assertion `v.(T)`: it panics where the comma-ok form
reports `false`. -/
def mustAssert {α : Type} (r : Option α) : Except Fault α :=
  match r with
  | some a => .ok a
  | none => .error .interfaceConversion

/-- A comma-ok assertion followed by `return nil, errJsonType` on failure. -/
def orErrJsonType {α : Type} (r : Option α) : Except Fault α :=
  match r with
  | some a => .ok a
  | none => .error .errJsonType

/-! ### Decoding an object into a struct -/

/-- The case folding under which `encoding/json` matches an object key
against a struct field name. Every field name used here is ASCII, and the only
characters that fold onto ASCII letters are the ASCII letters themselves, the
long s (U+017F, onto `S`) and the Kelvin sign (U+212A, onto `K`); other
characters are left alone, as they match no ASCII name either way. -/
def foldRune (c : Char) : Char :=
  if 'a'.toNat ≤ c.toNat ∧ c.toNat ≤ 'z'.toNat then Char.ofNat (c.toNat - 32)
  else if c.toNat = 0x17F then 'S'
  else if c.toNat = 0x212A then 'K'
  else c

/-- Folds every character of a key. -/
def foldName (s : String) : String :=
  String.mk (s.data.map foldRune)

/-- The object key `key` selects the struct field whose JSON name is `name`
(ASCII): an exact match or, failing that, a match up to case folding. The
field names of one struct used here stay distinct after folding, so a key
selects at most one field. -/
def bindsTo (key name : String) : Bool :=
  foldName key = foldName name

/-- Stores one member of a JSON object into a `models.StratumErr`; the Boolean
records that a type error was saved. A member that selects no field is
skipped; a mismatched value leaves its field as it was. -/
def storeStratumErr (acc : StratumErr × Bool) (kv : String × JSON) : StratumErr × Bool :=
  if bindsTo kv.1 "ErrNum" then
    match kv.2 with
    | .null => acc
    | .num (.uint n) => if n < 2 ^ 64 then ({ acc.1 with ErrNum := n }, acc.2) else (acc.1, true)
    | _ => (acc.1, true)
  else if bindsTo kv.1 "ErrStr" then
    match kv.2 with
    | .null => acc
    | .str s => ({ acc.1 with ErrStr := s }, acc.2)
    | _ => (acc.1, true)
  else if bindsTo kv.1 "result" then
    match kv.2 with
    | .null => ({ acc.1 with Result := none }, acc.2)
    | v => ({ acc.1 with Result := some v }, acc.2)
  else acc

/-- Decodes a JSON value into a field of type `models.StratumErr`: `null`
leaves it alone, an object is stored member by member, anything else is a type
error. -/
def decodeStratumErr (acc : StratumErr × Bool) : JSON → StratumErr × Bool
  | .null => acc
  | .obj ms => ms.foldl storeStratumErr acc
  | _ => (acc.1, true)

/-- Stores one member of the top-level object into a `models.StratumRsp`. The
field `ID` is an `interface{}`: it takes any value, but a number out of
`float64` range inside that value is a saved error. -/
def storeStratumRsp (acc : StratumRsp × Bool) (kv : String × JSON) : StratumRsp × Bool :=
  if bindsTo kv.1 "method" then
    match kv.2 with
    | .null => acc
    | .str s => ({ acc.1 with Method := s }, acc.2)
    | _ => (acc.1, true)
  else if bindsTo kv.1 "id" then
    if kv.2.floatsInRange then ({ acc.1 with ID := kv.2 }, acc.2) else (acc.1, true)
  else if bindsTo kv.1 "error" then
    let e := decodeStratumErr (acc.1.Error, acc.2) kv.2
    ({ acc.1 with Error := e.1 }, e.2)
  else if bindsTo kv.1 "result" then
    match kv.2 with
    | .null => ({ acc.1 with Result := none }, acc.2)
    | v => ({ acc.1 with Result := some v }, acc.2)
  else acc

/-- The call `json.Unmarshal(blob, &resp)` for a fresh `*models.StratumRsp`,
on a blob that is a JSON object: every member is stored in turn, and the call
returns an error when some member did not fit its field. -/
def unmarshalStratumRsp (ms : List (String × JSON)) : Except Fault StratumRsp :=
  let r := ms.foldl storeStratumRsp (({} : StratumRsp), false)
  if r.2 then .error .jsonError else .ok r.1

/-! ## fetchers/HeightFetcher.go: `Unmarshal` -/

/-- The body of the `id == p.AuthID` branch. -/
def unmarshalAuth (id : Nat) (message : List (String × JSON)) : Except Fault Reply := do
  let result ← unmarshalBool (rawGet message "result")
  let errorHolder ← unmarshalSlice (rawGet message "error")
  let resp : BasicReply := { ID := id, Result := result }
  match errorHolder with
  | none => return .basicReply resp
  | some _ =>
    let e0 ← index errorHolder 0
    let errNum ← orErrJsonType (assertUint64 e0)
    let e1 ← index errorHolder 1
    let errStr ← orErrJsonType (assertString e1)
    return .basicReply { resp with Error := { ErrNum := errNum, ErrStr := errStr } }

/-- The body of the `id == p.SubID` branch. -/
def unmarshalSub (message : List (String × JSON)) : Except Fault Reply := do
  let res ← unmarshalSlice (rawGet message "result")
  if (res.getD []).length = 0 then
    throw .errJsonType
  let r1 ← index res 1
  let extraNonce1 ← mustAssert (assertString r1)
  let r2 ← index res 2
  let extraNonce2Length ← mustAssert (assertFloat64 r2)
  return .subscribeReply { ExtraNonce1 := extraNonce1, ExtraNonce2Length := extraNonce2Length }

/-- The body of `case "mining.notify"`. Position 4 of `params` is not read. -/
def unmarshalNotify (message : List (String × JSON)) : Except Fault Reply := do
  let res ← unmarshalSlice (rawGet message "params")
  let jobID ← orErrJsonType (assertString (← index res 0))
  let hash ← orErrJsonType (assertString (← index res 1))
  let coinbaseTX1 ← orErrJsonType (assertString (← index res 2))
  let coinbaseTX2 ← orErrJsonType (assertString (← index res 3))
  let blockVersion ← orErrJsonType (assertString (← index res 5))
  let nbits ← orErrJsonType (assertString (← index res 6))
  let ntime ← orErrJsonType (assertString (← index res 7))
  let cleanJobs ← orErrJsonType (assertBool (← index res 8))
  return .notifyRes
    { JobID := jobID, Hash := hash, CoinbaseTX1 := coinbaseTX1, CoinbaseTX2 := coinbaseTX2,
      BlockVersion := blockVersion, Nbits := nbits, Ntime := ntime, CleanJobs := cleanJobs }

/-- The body of `case "mining.set_difficulty"`. -/
def unmarshalSetDifficulty (method : String) (message : List (String × JSON)) :
    Except Fault Reply := do
  let res ← unmarshalSlice (rawGet message "params")
  let difficulty ← orErrJsonType (assertFloat64 (← index res 0))
  return .stratumMsg { Method := method, Difficulty := difficulty }

/-- The value of `method` after lines 190-192: the decoded `method` member,
or the empty string when decoding it fails. -/
def methodOf (message : List (String × JSON)) : String :=
  match unmarshalString (rawGet message "method") with
  | .ok s => s
  | .error _ => ""

/-- The method `PoolHeightFetcher.Unmarshal`; `blob` is `none` when the bytes
are not valid JSON. Only `AuthID` and `SubID` of the receiver are read. -/
def Unmarshal (p : PoolHeightFetcher) (blob : Option JSON) : Except Fault Reply := do
  let message ← unmarshalMessage blob
  let method := methodOf message
  let id ← unmarshalUint64 (rawGet message "id")
  if id = p.AuthID then
    unmarshalAuth id message
  else if id = p.SubID then
    unmarshalSub message
  else if method = "mining.notify" then
    unmarshalNotify message
  else if method = "mining.set_difficulty" then
    unmarshalSetDifficulty method message
  else
    (unmarshalStratumRsp message).map Reply.stratumRsp

/-! ## fetchers/HeightFetcher.go: `handleNotifyRes` -/

/-- The fields of `models.Notification` that `handleNotifyRes` sets.
`NotifiedAt`, the wall-clock time of the call, is not modelled. -/
structure Notification where
  Height : Int
  OldHeight : Int
  Reason : String
  Username : String
  Type_ : String
  StratumServerURL : String
  CoinType : String
  StratumServerType : String
  deriving DecidableEq, Repr

/-- The result of `stratum.ParseHeight`: the height and the error, `none`
being `nil`. The function itself belongs to a package outside this
development and is taken as a parameter. -/
abbrev HeightParser := String → Reply → Int × Option String

/-- The method `PoolHeightFetcher.handleNotifyRes`. It returns the updated
receiver and the list of notifications handed to `SendNotification` (empty or
one element). An extraction error is logged and execution goes on. -/
def handleNotifyRes (ParseHeight : HeightParser) (p : PoolHeightFetcher) (resp : Reply) :
    PoolHeightFetcher × List Notification :=
  let (height, _err) := ParseHeight p.Param.CoinType resp
  let sent : List Notification :=
    if height ≠ p.Height then
      [{ Height := height, OldHeight := p.Height, Reason := "", Username := p.Param.Username,
         Type_ := "HeightChanged", StratumServerURL := p.Address, CoinType := p.Param.CoinType,
         StratumServerType := p.Param.ServerType }]
    else []
  ({ p with Height := height }, sent)

/-- Runs `handleNotifyRes` on a sequence of notify messages in order,
collecting the notifications dispatched. -/
def handleNotifySeq (ParseHeight : HeightParser) :
    PoolHeightFetcher → List Reply → PoolHeightFetcher × List Notification
  | p, [] => (p, [])
  | p, resp :: rest =>
    let r := handleNotifyRes ParseHeight p resp
    let r' := handleNotifySeq ParseHeight r.1 rest
    (r'.1, r.2 ++ r'.2)

/-- The pair (old height, new height) of a Height-Change Event. -/
def Notification.change (n : Notification) : Int × Int :=
  (n.OldHeight, n.Height)

/-- The events the claim expects for the heights `hs` seen after the height
`h0`: one pair (previous, current) for every height that differs from the one
before it. -/
def expectedChanges (h0 : Int) (hs : List Int) : List (Int × Int) :=
  ((h0 :: hs).zip hs).filter (fun c => c.1 ≠ c.2)

/-- A height parser for the witness: the job id selects the height. -/
def sampleParseHeight : HeightParser := fun _ resp =>
  match resp with
  | .notifyRes r => if r.JobID = "a" then (100, none) else (101, none)
  | _ => (0, some "not a notify message")

/-- A height parser that fails, returning height 0 next to its error. -/
def failingParseHeight : HeightParser := fun _ _ => (0, some "unsupported coin type")

/-! ## Shapes of JSON values that fit a struct field -/

/-- The value can be stored in a `string` field: a string or `null`. -/
def fitsString : JSON → Bool
  | .null => true
  | .str _ => true
  | _ => false

/-- The value can be stored in a `uint64` field: an unsigned integer literal
below `2^64`, or `null`. -/
def fitsUint64 : JSON → Bool
  | .null => true
  | .num (.uint n) => decide (n < 2 ^ 64)
  | _ => false

/-- The member of an `error` object fits the field of `models.StratumErr` it
selects, if any. -/
def fitsStratumErrMember (kv : String × JSON) : Bool :=
  (!bindsTo kv.1 "ErrNum" || fitsUint64 kv.2) && (!bindsTo kv.1 "ErrStr" || fitsString kv.2)

/-- The value can be stored in a `models.StratumErr` field: `null`, or an
object whose members fit. -/
def fitsStratumErr : JSON → Bool
  | .null => true
  | .obj ms => ms.all fitsStratumErrMember
  | _ => false

/-- The member of a line fits the field of `models.StratumRsp` it selects, if
any: a `method` must be a string or `null`, an `error` must fit
`models.StratumErr`, an `id` must hold no number out of `float64` range;
`result` takes any value. -/
def fitsStratumRspMember (kv : String × JSON) : Bool :=
  (!bindsTo kv.1 "method" || fitsString kv.2) && (!bindsTo kv.1 "error" || fitsStratumErr kv.2)
    && (!bindsTo kv.1 "id" || kv.2.floatsInRange)

/-! ## fetchers/HeightFetcher.go: connection life cycle -/

/-- The type `models.StratumMsg` of an outgoing request; `ID` holds a
`uint64`. -/
structure StratumMsg where
  Method : String
  Params : List String
  ID : Nat
  deriving DecidableEq, Repr

/-- What a session does that can be observed from outside, in order. -/
inductive Event where
  /-- The `k`-th call of `net.Dial` (counted from 0) and whether it succeeded. -/
  | dial (k : Nat) (ok : Bool)
  /-- The method `Reconnect` was entered. -/
  | reconnect
  /-- The method `Reconnect` logged "reconnect failed" and returned. -/
  | gaveUp
  /-- The method `WriteConn` wrote `msg` and a newline on connection `conn`. -/
  | wrote (conn : Nat) (msg : StratumMsg)
  /-- The method `SendNotification` was called with this notification. -/
  | dispatched (n : Notification)
  deriving DecidableEq, Repr

/-- A session in its environment: the fetcher, the number of `net.Dial` calls
made so far, and the trace of observable events. Log records and sleeps are
not part of the trace. -/
structure Session where
  p : PoolHeightFetcher := {}
  dials : Nat := 0
  trace : List Event := []
  deriving DecidableEq, Repr

/-- The network as the session meets it: `net k` tells whether the `k`-th
call of `net.Dial` succeeds. -/
abbrev Network := Nat → Bool

/-- The method `Dial`; the Boolean is `err == nil`. A failed `net.Dial`
returns a nil connection, which is assigned to `Conn`; the reader is replaced
only on success. -/
def Dial (net : Network) (s : Session) : Session × Bool :=
  if net s.dials then
    ({ p := { s.p with Conn := some s.dials, Reader := some s.dials },
       dials := s.dials + 1, trace := s.trace ++ [.dial s.dials true] }, true)
  else
    ({ p := { s.p with Conn := none },
       dials := s.dials + 1, trace := s.trace ++ [.dial s.dials false] }, false)

/-- The method `Connect(limit)` for `limit = n - 1`, by recursion on `n`: the
dial is made first; a negative limit then returns the error "limit", whatever
the dial did; otherwise a failed dial retries with `limit - 1`. The Boolean is
`err == nil`. -/
def connectFrom (net : Network) : Nat → Session → Session × Bool
  | 0, s => ((Dial net s).1, false)
  | n + 1, s =>
    let r := Dial net s
    if r.2 then (r.1, true) else connectFrom net n r.1

/-- The method `Connect(limit)`. -/
def Connect (net : Network) (limit : Int) (s : Session) : Session × Bool :=
  connectFrom net (limit + 1).toNat s

/-- The method `WriteConn`: it panics on a nil connection; a failed write is
only logged. -/
def WriteConn (msg : StratumMsg) (s : Session) : Except Fault Session :=
  match s.p.Conn with
  | none => .error .nilDereference
  | some c => .ok { s with trace := s.trace ++ [.wrote c msg] }

/-- The method `Subscribe`; `p.ID++` wraps at `2^64`. -/
def Subscribe (s : Session) : Except Fault Session :=
  let msg : StratumMsg := { Method := "mining.subscribe", ID := s.p.ID, Params := ["b-miner"] }
  WriteConn msg { s with p := { s.p with SubID := msg.ID, ID := (s.p.ID + 1) % 2 ^ 64 } }

/-- The method `Auth`; `p.ID++` wraps at `2^64`. -/
def Auth (s : Session) : Except Fault Session :=
  let msg : StratumMsg :=
    { Method := "mining.authorize", ID := s.p.ID,
      Params := [s.p.Param.Username, s.p.Param.Password] }
  WriteConn msg { s with p := { s.p with AuthID := msg.ID, ID := (s.p.ID + 1) % 2 ^ 64 } }

/-- The method `Reconnect`. -/
def Reconnect (net : Network) (s : Session) : Except Fault Session :=
  let s0 : Session :=
    { s with p := { s.p with ID := 1, AuthID := 2 }, trace := s.trace ++ [.reconnect] }
  let r := Connect net 3 s0
  if r.2 then do
    let s1 ← Subscribe r.1
    Auth s1
  else
    .ok { r.1 with trace := r.1.trace ++ [.gaveUp] }

/-! ## fetchers/HeightFetcher.go: `Listen` -/

/-- What `p.Reader.ReadString` returns in one iteration: a complete line (its
bytes parsed as JSON, `none` when they are not valid JSON), the error
`io.EOF`, or any other error. -/
inductive ReadResult where
  | line (blob : Option JSON)
  | eof
  | ioError

/-- Lines 140-154 of `Listen`: what is done with a line that was read. A
decoding error is logged and the line skipped; a panic inside `Unmarshal`
ends the process. -/
def processLine (ParseHeight : HeightParser) (s : Session) (blob : Option JSON) :
    Except Fault Session :=
  match Unmarshal s.p blob with
  | .error e => if e.isPanic then .error e else .ok s
  | .ok (.notifyRes n) =>
    let r := handleNotifyRes ParseHeight s.p (.notifyRes n)
    .ok { s with p := r.1, trace := s.trace ++ r.2.map Event.dispatched }
  | .ok _ => .ok s

/-- One iteration of the loop of `Listen`, given what the read returns. -/
def listenStep (net : Network) (ParseHeight : HeightParser) (s : Session) (r : ReadResult) :
    Except Fault Session := do
  let s1 ← if s.p.Reader = none then Reconnect net s else pure s
  match s1.p.Reader with
  | none => throw .nilDereference
  | some _ =>
    match r with
    | .eof => Reconnect net s1
    | .ioError => pure s1
    | .line blob => processLine ParseHeight s1 blob

/-- The loop of `Listen` over the first reads of the session. -/
def listenRun (net : Network) (ParseHeight : HeightParser) :
    Session → List ReadResult → Except Fault Session
  | s, [] => .ok s
  | s, r :: rs => do
    let s1 ← listenStep net ParseHeight s r
    listenRun net ParseHeight s1 rs

/-- The number of times `Reconnect` was entered in a trace. -/
def reconnectCount (t : List Event) : Nat :=
  t.count .reconnect

/-- A network on which every dial fails. -/
def deadNetwork : Network := fun _ => false

/-- A network on which the first four dials fail and the fifth succeeds. -/
def fifthDialNetwork : Network := fun k => decide (k = 4)

/-- A height parser for examples: the height is the length of the job id. -/
def lengthParseHeight : HeightParser := fun _ resp =>
  match resp with
  | .notifyRes r => (r.JobID.length, none)
  | _ => (0, some "not a notify message")

end StratumMonitor

namespace StratumMonitor

/-! ## Shared lemmas on the height-change handler -/

theorem handleNotifyRes_param (ParseHeight : HeightParser) (p : PoolHeightFetcher) (resp : Reply) :
    (handleNotifyRes ParseHeight p resp).1.Param = p.Param := rfl

theorem handleNotifyRes_height (ParseHeight : HeightParser) (p : PoolHeightFetcher) (resp : Reply) :
    (handleNotifyRes ParseHeight p resp).1.Height = (ParseHeight p.Param.CoinType resp).1 := rfl

theorem handleNotifyRes_changes (ParseHeight : HeightParser) (p : PoolHeightFetcher)
    (resp : Reply) :
    (handleNotifyRes ParseHeight p resp).2.map Notification.change =
      if p.Height ≠ (ParseHeight p.Param.CoinType resp).1
      then [(p.Height, (ParseHeight p.Param.CoinType resp).1)] else [] := by
  unfold handleNotifyRes
  by_cases h : (ParseHeight p.Param.CoinType resp).1 = p.Height
  · simp [h]
  · have h' : ¬ p.Height = (ParseHeight p.Param.CoinType resp).1 := fun e => h e.symm
    simp [h, h', Notification.change]

theorem expectedChanges_cons (h0 h : Int) (hs : List Int) :
    expectedChanges h0 (h :: hs) =
      (if h0 ≠ h then [(h0, h)] else []) ++ expectedChanges h hs := by
  unfold expectedChanges
  by_cases e : h0 = h
  · simp [e, List.filter, List.zip]
  · simp [e, List.filter, List.zip]

theorem handleNotifySeq_spec (ParseHeight : HeightParser) (coin : String) :
    ∀ (resps : List Reply) (p : PoolHeightFetcher), p.Param.CoinType = coin →
      (handleNotifySeq ParseHeight p resps).2.map Notification.change =
          expectedChanges p.Height (resps.map (fun r => (ParseHeight coin r).1)) ∧
        (handleNotifySeq ParseHeight p resps).1.Height =
          (resps.map (fun r => (ParseHeight coin r).1)).getLastD p.Height := by
  intro resps
  induction resps with
  | nil =>
    intro p _
    simp [handleNotifySeq, expectedChanges]
  | cons resp rest ih =>
    intro p hp
    have hq : (handleNotifyRes ParseHeight p resp).1.Param.CoinType = coin := by
      rw [handleNotifyRes_param]; exact hp
    obtain ⟨ih1, ih2⟩ := ih (handleNotifyRes ParseHeight p resp).1 hq
    rw [handleNotifyRes_height, hp] at ih1 ih2
    constructor
    · simp only [handleNotifySeq, List.map_append, List.map_cons, ih1, expectedChanges_cons,
        handleNotifyRes_changes, hp]
    · simp only [handleNotifySeq, List.map_cons, ih2]
      cases rest <;> simp [List.getLastD]

/-! ## Shared lemmas on `Unmarshal` -/

/-- On a JSON object whose id decodes and matches neither pending ID,
`Unmarshal` is the switch on the method. -/
theorem Unmarshal_unmatched_id (p : PoolHeightFetcher) (ms : List (String × JSON)) (i : Nat)
    (hid : unmarshalUint64 (rawGet ms "id") = .ok i) (hA : i ≠ p.AuthID) (hS : i ≠ p.SubID) :
    Unmarshal p (some (.obj ms)) =
      if methodOf ms = "mining.notify" then unmarshalNotify ms
      else if methodOf ms = "mining.set_difficulty" then
        unmarshalSetDifficulty (methodOf ms) ms
      else (unmarshalStratumRsp ms).map Reply.stratumRsp := by
  simp [Unmarshal, unmarshalMessage, bind, Except.bind, hid, hA, hS]

/-- The `mining.notify` branch on a `params` array of nine or more elements
with strings at positions 0-3 and 5-7 and a boolean at position 8, whose
numbers are within `float64` range. -/
theorem unmarshalNotify_wellTyped (ms : List (String × JSON)) (a b c d e f g : String)
    (x : JSON) (cl : Bool) (rest : List JSON)
    (hp : rawGet ms "params" = some (.arr
      (.str a :: .str b :: .str c :: .str d :: x :: .str e :: .str f :: .str g :: .bool cl
        :: rest)))
    (hx : x.floatsInRange = true) (hrest : floatsInRangeList rest = true) :
    unmarshalNotify ms = .ok (.notifyRes
      { JobID := a, Hash := b, CoinbaseTX1 := c, CoinbaseTX2 := d, MerkleBranches := [],
        BlockVersion := e, Nbits := f, Ntime := g, CleanJobs := cl }) := by
  simp [unmarshalNotify, hp, unmarshalSlice, floatsInRangeList, JSON.floatsInRange, hx, hrest,
    index, orErrJsonType, assertString, assertBool, bind, Except.bind, pure, Except.pure]

/-- A successful `mining.notify` branch leaves `MerkleBranches` nil. -/
theorem unmarshalNotify_merkle (ms : List (String × JSON)) (r : Reply)
    (h : unmarshalNotify ms = .ok r) :
    ∃ n, r = .notifyRes n ∧ n.MerkleBranches = [] := by
  simp only [unmarshalNotify, bind, Except.bind, pure, Except.pure] at h
  repeat' (split at h <;> try contradiction)
  cases h
  exact ⟨_, rfl, rfl⟩

/-- The authorize branch never returns a notify payload. -/
theorem unmarshalAuth_not_notify (id : Nat) (ms : List (String × JSON)) (n : NotifyRes) :
    unmarshalAuth id ms ≠ .ok (.notifyRes n) := by
  intro h
  simp only [unmarshalAuth, bind, Except.bind, pure, Except.pure] at h
  repeat' (split at h <;> try contradiction)
  all_goals cases h

/-- The subscribe branch never returns a notify payload. -/
theorem unmarshalSub_not_notify (ms : List (String × JSON)) (n : NotifyRes) :
    unmarshalSub ms ≠ .ok (.notifyRes n) := by
  intro h
  simp only [unmarshalSub, bind, Except.bind, pure, Except.pure, throw, throwThe,
    MonadExceptOf.throw] at h
  repeat' (split at h <;> try contradiction)
  all_goals cases h

/-- The `mining.set_difficulty` branch never returns a notify payload. -/
theorem unmarshalSetDifficulty_not_notify (m : String) (ms : List (String × JSON))
    (n : NotifyRes) : unmarshalSetDifficulty m ms ≠ .ok (.notifyRes n) := by
  intro h
  simp only [unmarshalSetDifficulty, bind, Except.bind, pure, Except.pure] at h
  repeat' (split at h <;> try contradiction)
  all_goals cases h

/-! ## Shared lemmas on decoding into `models.StratumRsp` -/

theorem storeStratumErr_fits (acc : StratumErr × Bool) (kv : String × JSON)
    (hacc : acc.2 = false) (hkv : fitsStratumErrMember kv = true) :
    (storeStratumErr acc kv).2 = false := by
  obtain ⟨k, v⟩ := kv
  simp only [fitsStratumErrMember, Bool.and_eq_true, Bool.or_eq_true, Bool.not_eq_true'] at hkv
  obtain ⟨h1, h2⟩ := hkv
  unfold storeStratumErr
  by_cases b1 : bindsTo k "ErrNum" = true
  · have f1 : fitsUint64 v = true := by
      rcases h1 with h1 | h1
      · rw [b1] at h1; cases h1
      · exact h1
    simp only [b1, if_true]
    cases v with
    | num n =>
      cases n with
      | uint m =>
        have hm : m < 18446744073709551616 := by simpa [fitsUint64] using f1
        simp [hm, hacc]
      | other _ _ _ => simp [fitsUint64] at f1
    | null => simpa using hacc
    | bool _ => simp [fitsUint64] at f1
    | str _ => simp [fitsUint64] at f1
    | arr _ => simp [fitsUint64] at f1
    | obj _ => simp [fitsUint64] at f1
  · by_cases b2 : bindsTo k "ErrStr" = true
    · have f2 : fitsString v = true := by
        rcases h2 with h2 | h2
        · rw [b2] at h2; cases h2
        · exact h2
      simp only [b1, b2, if_true]
      cases v <;> simp_all [fitsString]
    · by_cases b3 : bindsTo k "result" = true
      · simp only [b1, b2, b3, if_true]
        cases v <;> simp_all
      · simp [b1, b2, b3, hacc]

theorem foldl_storeStratumErr_fits (ms : List (String × JSON)) :
    ∀ acc : StratumErr × Bool, acc.2 = false → ms.all fitsStratumErrMember = true →
      (ms.foldl storeStratumErr acc).2 = false := by
  induction ms with
  | nil => intro acc hacc _; simpa using hacc
  | cons kv rest ih =>
    intro acc hacc hall
    simp only [List.all_cons, Bool.and_eq_true] at hall
    simp only [List.foldl_cons]
    exact ih _ (storeStratumErr_fits acc kv hacc hall.1) hall.2

theorem decodeStratumErr_fits (acc : StratumErr × Bool) (v : JSON)
    (hacc : acc.2 = false) (hv : fitsStratumErr v = true) :
    (decodeStratumErr acc v).2 = false := by
  cases v with
  | null => simpa [decodeStratumErr] using hacc
  | obj ms => exact foldl_storeStratumErr_fits ms acc hacc (by simpa [fitsStratumErr] using hv)
  | bool _ => simp [fitsStratumErr] at hv
  | num _ => simp [fitsStratumErr] at hv
  | str _ => simp [fitsStratumErr] at hv
  | arr _ => simp [fitsStratumErr] at hv

theorem storeStratumRsp_fits (acc : StratumRsp × Bool) (kv : String × JSON)
    (hacc : acc.2 = false) (hkv : fitsStratumRspMember kv = true) :
    (storeStratumRsp acc kv).2 = false := by
  obtain ⟨k, v⟩ := kv
  simp only [fitsStratumRspMember, Bool.and_eq_true, Bool.or_eq_true, Bool.not_eq_true'] at hkv
  obtain ⟨⟨h1, h2⟩, h3⟩ := hkv
  unfold storeStratumRsp
  by_cases b1 : bindsTo k "method" = true
  · have f1 : fitsString v = true := by
      rcases h1 with h1 | h1
      · rw [b1] at h1; cases h1
      · exact h1
    simp only [b1, if_true]
    cases v <;> simp_all [fitsString]
  · by_cases b2 : bindsTo k "id" = true
    · have f2 : v.floatsInRange = true := by
        rcases h3 with h3 | h3
        · rw [b2] at h3; cases h3
        · exact h3
      simp [b1, b2, f2, hacc]
    · by_cases b3 : bindsTo k "error" = true
      · have f3 : fitsStratumErr v = true := by
          rcases h2 with h2 | h2
          · rw [b3] at h2; cases h2
          · exact h2
        simp only [b1, b2, b3, if_true]
        exact decodeStratumErr_fits (acc.1.Error, acc.2) v hacc f3
      · by_cases b4 : bindsTo k "result" = true
        · simp only [b1, b2, b3, b4, if_true]
          cases v <;> simp_all
        · simp [b1, b2, b3, b4, hacc]

theorem foldl_storeStratumRsp_fits (ms : List (String × JSON)) :
    ∀ acc : StratumRsp × Bool, acc.2 = false → ms.all fitsStratumRspMember = true →
      (ms.foldl storeStratumRsp acc).2 = false := by
  induction ms with
  | nil => intro acc hacc _; simpa using hacc
  | cons kv rest ih =>
    intro acc hacc hall
    simp only [List.all_cons, Bool.and_eq_true] at hall
    simp only [List.foldl_cons]
    exact ih _ (storeStratumRsp_fits acc kv hacc hall.1) hall.2

/-- Decoding an object into `models.StratumRsp` succeeds when every member
fits the field it selects. -/
theorem unmarshalStratumRsp_fits (ms : List (String × JSON))
    (hall : ms.all fitsStratumRspMember = true) :
    ∃ r, unmarshalStratumRsp ms = .ok r := by
  have h := foldl_storeStratumRsp_fits ms (({} : StratumRsp), false) rfl hall
  refine ⟨(ms.foldl storeStratumRsp (({} : StratumRsp), false)).1, ?_⟩
  simp [unmarshalStratumRsp, h]

/-- A notify payload returned by `Unmarshal` comes from the `mining.notify`
branch, which leaves `MerkleBranches` nil. -/
theorem Unmarshal_notifyRes_merkle (p : PoolHeightFetcher) (blob : Option JSON) (n : NotifyRes)
    (h : Unmarshal p blob = .ok (.notifyRes n)) : n.MerkleBranches = [] := by
  simp only [Unmarshal, bind, Except.bind] at h
  split at h
  · contradiction
  · rename_i message _
    split at h
    · contradiction
    · split_ifs at h with h1 h2 h3 h4
      · exact absurd h (unmarshalAuth_not_notify _ _ _)
      · exact absurd h (unmarshalSub_not_notify _ _)
      · obtain ⟨m, hm, hmb⟩ := unmarshalNotify_merkle _ _ h
        cases hm
        exact hmb
      · exact absurd h (unmarshalSetDifficulty_not_notify _ _ _)
      · cases hr : unmarshalStratumRsp message <;> simp [hr, Except.map] at h

/-! ## C1: height changes over a sequence of notify messages -/

/-- C1. Starting from Height State 0, for every finite sequence of notify
messages whose heights are extracted without error as `hs = h1..hn`, the
notifications handed to the dispatcher are, in order, exactly the pairs
(previous height, new height) of the messages whose height differs from the
one before it (the height before the first message being 0), a message that
repeats the previous height dispatches nothing, and the Height State at the
end is `hn`. For the heights 100, 100, 101 these are the two events (0, 100)
and (100, 101). -/
theorem C1_handleNotifyRes_sequence (ParseHeight : HeightParser) (p : PoolHeightFetcher)
    (resps : List Reply) (hs : List Int) (h0 : p.Height = 0)
    (hok : resps.map (ParseHeight p.Param.CoinType) = hs.map (fun h => (h, none))) :
    (handleNotifySeq ParseHeight p resps).2.map Notification.change = expectedChanges 0 hs ∧
      (handleNotifySeq ParseHeight p resps).1.Height = hs.getLastD 0 ∧
      (hs = [100, 100, 101] →
        (handleNotifySeq ParseHeight p resps).2.map Notification.change
          = [(0, 100), (100, 101)]) := by
  have hmap : resps.map (fun r => (ParseHeight p.Param.CoinType r).1) = hs := by
    have h := congrArg (List.map Prod.fst) hok
    simpa [List.map_map, Function.comp_def] using h
  obtain ⟨h1, h2⟩ := handleNotifySeq_spec ParseHeight p.Param.CoinType resps p rfl
  rw [h0, hmap] at h1 h2
  refine ⟨h1, h2, ?_⟩
  intro e
  rw [h1, e]
  decide

/-- C1 at the scenario of the specification: three notify messages with
heights 100, 100 and 101. -/
theorem C1_handleNotifyRes_sequence_witness :
    (handleNotifySeq sampleParseHeight {}
        [.notifyRes { JobID := "a" }, .notifyRes { JobID := "a" },
          .notifyRes { JobID := "b" }]).2.map Notification.change
        = [(0, 100), (100, 101)] ∧
      (handleNotifySeq sampleParseHeight {}
        [.notifyRes { JobID := "a" }, .notifyRes { JobID := "a" },
          .notifyRes { JobID := "b" }]).1.Height = 101 :=
  have h := C1_handleNotifyRes_sequence sampleParseHeight {}
    [.notifyRes { JobID := "a" }, .notifyRes { JobID := "a" }, .notifyRes { JobID := "b" }]
    [100, 100, 101] rfl rfl
  ⟨h.2.2 rfl, h.2.1⟩

/-! ## C2: a failed height extraction -/

/-- C2. With Height State 100, a notify message whose height extraction fails
(returning 0 next to the error) makes `handleNotifyRes` dispatch the event
(old = 100, new = 0) and overwrite Height State with 0: the error is logged
and the function goes on as if the extraction had succeeded. -/
theorem C2_handleNotifyRes_failed_extraction :
    (failingParseHeight "" (.notifyRes {})).2 ≠ none ∧
      ((handleNotifyRes failingParseHeight { Height := 100 } (.notifyRes {})).1.Height = 0 ∧
        (handleNotifyRes failingParseHeight { Height := 100 } (.notifyRes {})).2.map
          Notification.change = [(100, 0)]) := by
  decide

/-! ## C3: an authorize reply that carries an error array -/

/-- C3. With authorize ID 2, the line
`{"id":2,"result":null,"error":[c, m, ...]}` is not decoded to an
AuthorizeReply, whatever the numeric code `c`, the message `m` and the rest of
the array are: `Unmarshal` returns `errJsonType`, because the first element,
decoded as a `float64`, never passes the assertion to `uint64` (and it returns
the decoder's error when a number of the array is out of `float64` range).
The line of the source comment, `[29,"Invalid username",null]`, is the
instance `c = 29`, `m = "Invalid username"`: it returns `errJsonType`. -/
theorem C3_authorize_error_array_rejected (c : JNumber) (m : String) (rest : List JSON) :
    Unmarshal { ID := 3, AuthID := 2, SubID := 1 }
        (some (.obj [("id", .num (.uint 2)), ("result", .null),
          ("error", .arr (.num c :: .str m :: rest))]))
      = .error (if floatsInRangeList (.num c :: .str m :: rest) then Fault.errJsonType
          else Fault.jsonError) ∧
    Unmarshal { ID := 3, AuthID := 2, SubID := 1 }
        (some (.obj [("id", .num (.uint 2)), ("result", .null),
          ("error", .arr [.num (.uint 29), .str "Invalid username", .null])]))
      = .error .errJsonType := by
  refine ⟨?_, rfl⟩
  cases h : floatsInRangeList (.num c :: .str m :: rest) <;>
    simp [Unmarshal, unmarshalMessage, rawGet, unmarshalUint64, unmarshalAuth, unmarshalBool,
      unmarshalSlice, index, orErrJsonType, assertUint64, bind, Except.bind, h]

/-! ## C4: the authorize acknowledgement -/

/-- C4. For every uint64 `n`, every boolean `b` and every session whose
pending authorize ID is `n`, the line `{"id":n,"result":b,"error":null}`
decodes without error to the AuthorizeReply with ID `n`, success flag `b`,
error code 0 and empty error message. -/
theorem C4_authorize_ack_decodes (p : PoolHeightFetcher) (n : Nat) (b : Bool)
    (hn : n < 2 ^ 64) (hp : p.AuthID = n) :
    Unmarshal p (some (.obj [("id", .num (.uint n)), ("result", .bool b), ("error", .null)]))
      = .ok (.basicReply
          { ID := n, Result := b, Error := { ErrNum := 0, ErrStr := "", Result := none } }) := by
  subst hp
  have hn' : p.AuthID < 18446744073709551616 := by simpa using hn
  simp [Unmarshal, unmarshalMessage, rawGet, unmarshalUint64, unmarshalAuth, unmarshalBool,
    unmarshalSlice, bind, Except.bind, pure, Except.pure, hn']

/-- C4 at the scenario of the specification: `{"id":2,"result":true,"error":null}`
with authorize ID 2. -/
theorem C4_authorize_ack_decodes_witness :
    Unmarshal { ID := 3, AuthID := 2, SubID := 1 }
        (some (.obj [("id", .num (.uint 2)), ("result", .bool true), ("error", .null)]))
      = .ok (.basicReply
          { ID := 2, Result := true, Error := { ErrNum := 0, ErrStr := "", Result := none } }) :=
  C4_authorize_ack_decodes { ID := 3, AuthID := 2, SubID := 1 } 2 true (by decide) rfl

/-! ## C5: malformed subscribe replies -/

/-- C5. With subscribe ID 1 and authorize ID 2, a subscribe reply whose
`result` array has one element makes `Unmarshal` panic with an index out of
range (index 1, length 1) and one with two elements panics at index 2; a
second element that is not a string, or a third that is not a number, makes
it panic on the type assertion. None of these returns a decode error. -/
theorem C5_subscribe_malformed_panics :
    Unmarshal { ID := 3, AuthID := 2, SubID := 1 }
        (some (.obj [("id", .num (.uint 1)), ("result", .arr [.str "x"]), ("error", .null)]))
      = .error (.indexOutOfRange 1 1) ∧
    Unmarshal { ID := 3, AuthID := 2, SubID := 1 }
        (some (.obj [("id", .num (.uint 1)), ("result", .arr [.arr [], .str "7fcc4632"]),
          ("error", .null)]))
      = .error (.indexOutOfRange 2 2) ∧
    Unmarshal { ID := 3, AuthID := 2, SubID := 1 }
        (some (.obj [("id", .num (.uint 1)),
          ("result", .arr [.arr [], .num (.uint 5), .num (.uint 8)]), ("error", .null)]))
      = .error .interfaceConversion ∧
    Unmarshal { ID := 3, AuthID := 2, SubID := 1 }
        (some (.obj [("id", .num (.uint 1)),
          ("result", .arr [.arr [], .str "7fcc4632", .str "8"]), ("error", .null)]))
      = .error .interfaceConversion ∧
    Fault.isPanic (.indexOutOfRange 1 1) = true ∧ Fault.isPanic .interfaceConversion = true :=
  ⟨rfl, rfl, rfl, rfl, rfl, rfl⟩

/-! ## C6: malformed notify messages -/

/-- C6. With pending IDs 1 and 2, a `mining.notify` line with `id` null whose
`params` is null or the empty array makes `Unmarshal` panic with an index out
of range (index 0, length 0), and one whose `params` holds eight well-typed
elements panics at index 8; no decode error is returned. -/
theorem C6_notify_short_params_panics :
    Unmarshal { ID := 3, AuthID := 2, SubID := 1 }
        (some (.obj [("id", .null), ("method", .str "mining.notify"), ("params", .null)]))
      = .error (.indexOutOfRange 0 0) ∧
    Unmarshal { ID := 3, AuthID := 2, SubID := 1 }
        (some (.obj [("id", .null), ("method", .str "mining.notify"), ("params", .arr [])]))
      = .error (.indexOutOfRange 0 0) ∧
    Unmarshal { ID := 3, AuthID := 2, SubID := 1 }
        (some (.obj [("id", .null), ("method", .str "mining.notify"),
          ("params", .arr [.str "job", .str "prev", .str "cb1", .str "cb2", .arr [],
            .str "20000000", .str "1a01aa3d", .str "5e000000"])]))
      = .error (.indexOutOfRange 8 8) ∧
    Fault.isPanic (.indexOutOfRange 0 0) = true :=
  ⟨rfl, rfl, rfl, rfl⟩

/-! ## C7: the fallback envelope -/

/-- C7, as stated, fails: with pending IDs 1 and 2, the standard error reply
`{"id":7,"result":null,"error":[21,"Job not found",null]}` has an id that
matches neither pending ID and no method, yet `Unmarshal` returns a decode
error, because an array cannot be stored in the struct field `error`. So does
the line `{"ID":1e999,"id":7}`, whose member `ID` also selects the field `id`
and holds a number out of `float64` range. -/
theorem C7_error_array_rejected :
    Unmarshal { ID := 3, AuthID := 2, SubID := 1 }
        (some (.obj [("id", .num (.uint 7)), ("result", .null),
          ("error", .arr [.num (.uint 21), .str "Job not found", .null])]))
      = .error .jsonError ∧
    Unmarshal { ID := 3, AuthID := 2, SubID := 1 }
        (some (.obj [("ID", .num (.other false 1 999)), ("id", .num (.uint 7))]))
      = .error .jsonError :=
  ⟨rfl, rfl⟩

/-- C7, amended. For every session and every JSON object whose id is a uint64
literal matching neither the pending authorize ID nor the pending subscribe
ID, and whose method is absent or is neither `mining.notify` nor
`mining.set_difficulty`, `Unmarshal` returns an UnrecognizedEnvelope
(`StratumRsp`) and no error, provided every member that selects the field
`method` is a string or null, every member that selects the field `error`
is null or an object whose `ErrNum` members are uint64 literals or null and
whose `ErrStr` members are strings or null, and every member that selects the
field `id` holds no number out of `float64` range; `result` and the members
that select no field may hold anything. A key selects a field when it equals
the field name up to case. -/
theorem C7_fallback_envelope (p : PoolHeightFetcher) (ms : List (String × JSON)) (i : Nat)
    (hid : rawGet ms "id" = some (.num (.uint i))) (hlt : i < 2 ^ 64)
    (hA : i ≠ p.AuthID) (hS : i ≠ p.SubID)
    (hm1 : methodOf ms ≠ "mining.notify") (hm2 : methodOf ms ≠ "mining.set_difficulty")
    (hfit : ms.all fitsStratumRspMember = true) :
    ∃ r, Unmarshal p (some (.obj ms)) = .ok (.stratumRsp r) := by
  have hdec : unmarshalUint64 (rawGet ms "id") = .ok i := by
    have hlt' : i < 18446744073709551616 := by simpa using hlt
    simp [hid, unmarshalUint64, hlt']
  obtain ⟨r, hr⟩ := unmarshalStratumRsp_fits ms hfit
  refine ⟨r, ?_⟩
  rw [Unmarshal_unmatched_id p ms i hdec hA hS, if_neg hm1, if_neg hm2, hr]
  rfl

/-- C7, amended, on `{"id":7,"result":null,"error":null,"method":"client.show_message"}`
with pending IDs 1 and 2. -/
theorem C7_fallback_envelope_witness :
    ∃ r, Unmarshal { ID := 3, AuthID := 2, SubID := 1 }
        (some (.obj [("id", .num (.uint 7)), ("result", .null), ("error", .null),
          ("method", .str "client.show_message")]))
      = .ok (.stratumRsp r) :=
  C7_fallback_envelope { ID := 3, AuthID := 2, SubID := 1 }
    [("id", .num (.uint 7)), ("result", .null), ("error", .null),
      ("method", .str "client.show_message")] 7
    rfl (by decide) (by decide) (by decide) (by decide) (by decide) rfl

/-! ## C8: a notification with a null id -/

/-- C8. A fetcher that starts from the zero value and is connected runs the
handshake of `Start` (`Subscribe`, then `Auth`) with next ID 0, which leaves
subscribe ID 0 and authorize ID 1. A null id decodes to 0, so in that state
the notification `{"method":"mining.notify","params":[...],"id":null}` with
nine well-typed params is taken for the subscribe reply and `Unmarshal`
returns a decode error instead of a notify payload; so does the line
`{"id":null,"method":"mining.set_difficulty","params":[64]}` of the source
comment. With authorize ID 0 the notification is taken for the authorize
reply. -/
theorem C8_null_id_matches_zero :
    (Subscribe { p := { Conn := some 0, Reader := some 0 }, dials := 1 } >>= Auth)
      = .ok
        { p := { Conn := some 0, Reader := some 0, ID := 2, AuthID := 1, SubID := 0 },
          dials := 1,
          trace := [Event.wrote 0
              { Method := "mining.subscribe", Params := ["b-miner"], ID := 0 },
            Event.wrote 0 { Method := "mining.authorize", Params := ["", ""], ID := 1 }] } ∧
    Unmarshal { Conn := some 0, Reader := some 0, ID := 2, AuthID := 1, SubID := 0 }
        (some (.obj [("method", .str "mining.notify"),
          ("params", .arr [.str "job", .str "prev", .str "cb1", .str "cb2", .arr [],
            .str "20000000", .str "1a01aa3d", .str "5e000000", .bool true]),
          ("id", .null)]))
      = .error .jsonError ∧
    Unmarshal { Conn := some 0, Reader := some 0, ID := 2, AuthID := 1, SubID := 0 }
        (some (.obj [("id", .null), ("method", .str "mining.set_difficulty"),
          ("params", .arr [.num (.uint 64)])]))
      = .error .jsonError ∧
    Unmarshal { ID := 1, AuthID := 0, SubID := 5 }
        (some (.obj [("method", .str "mining.notify"),
          ("params", .arr [.str "job", .str "prev", .str "cb1", .str "cb2", .arr [],
            .str "20000000", .str "1a01aa3d", .str "5e000000", .bool true]),
          ("id", .null)]))
      = .error .jsonError :=
  ⟨rfl, rfl, rfl, rfl⟩

/-! ## C9: the fields of a notify payload -/

/-- C9, as stated, fails: with pending IDs 1 and 2, the notification whose
params are well typed at positions 0-3 and 5-8 and whose params[4] is the
number `1e999` is rejected with the decoder's error, because `params` is
decoded into a `[]interface{}` and `1e999` is out of `float64` range. -/
theorem C9_param_out_of_float_range :
    Unmarshal { ID := 3, AuthID := 2, SubID := 1 }
        (some (.obj [("id", .null), ("method", .str "mining.notify"),
          ("params", .arr [.str "job", .str "prev", .str "cb1", .str "cb2",
            .num (.other false 1 999), .str "20000000", .str "1a01aa3d", .str "5e000000",
            .bool true])]))
      = .error .jsonError :=
  rfl

/-- C9, amended. For every line with method `mining.notify` whose id decodes
to a value matching neither pending ID and whose `params` array has at least
nine elements with strings at positions 0-3 and 5-7 and a boolean at position
8, and holds no number literal out of `float64` range (at position 4 or after
position 8, at any depth), `Unmarshal` returns without error a notify payload
with JobID = params[0], Hash = params[1], CoinbaseTX1 = params[2],
CoinbaseTX2 = params[3], BlockVersion = params[5], Nbits = params[6],
Ntime = params[7] and CleanJobs = params[8]. -/
theorem C9_notify_fields (p : PoolHeightFetcher) (ms : List (String × JSON)) (i : Nat)
    (a b c d e f g : String) (x : JSON) (cl : Bool) (rest : List JSON)
    (hid : unmarshalUint64 (rawGet ms "id") = .ok i)
    (hA : i ≠ p.AuthID) (hS : i ≠ p.SubID)
    (hm : rawGet ms "method" = some (.str "mining.notify"))
    (hp : rawGet ms "params" = some (.arr
      (.str a :: .str b :: .str c :: .str d :: x :: .str e :: .str f :: .str g :: .bool cl
        :: rest)))
    (hx : x.floatsInRange = true) (hrest : floatsInRangeList rest = true) :
    ∃ n, Unmarshal p (some (.obj ms)) = .ok (.notifyRes n) ∧
      n.JobID = a ∧ n.Hash = b ∧ n.CoinbaseTX1 = c ∧ n.CoinbaseTX2 = d ∧
      n.BlockVersion = e ∧ n.Nbits = f ∧ n.Ntime = g ∧ n.CleanJobs = cl := by
  have hmeth : methodOf ms = "mining.notify" := by simp [methodOf, hm, unmarshalString]
  rw [Unmarshal_unmatched_id p ms i hid hA hS, if_pos hmeth]
  exact ⟨_, unmarshalNotify_wellTyped ms a b c d e f g x cl rest hp hx hrest,
    rfl, rfl, rfl, rfl, rfl, rfl, rfl, rfl⟩

/-- C9, amended, on a notification with ten params, received with pending IDs
1 and 2. -/
theorem C9_notify_fields_witness :
    ∃ n, Unmarshal { ID := 3, AuthID := 2, SubID := 1 }
        (some (.obj [("id", .null), ("method", .str "mining.notify"),
          ("params", .arr [.str "job", .str "prev", .str "cb1", .str "cb2",
            .arr [.str "ab", .str "cd"], .str "20000000", .str "1a01aa3d", .str "5e000000",
            .bool true, .num (.uint 7)])]))
        = .ok (.notifyRes n) ∧
      n.JobID = "job" ∧ n.Hash = "prev" ∧ n.CoinbaseTX1 = "cb1" ∧ n.CoinbaseTX2 = "cb2" ∧
      n.BlockVersion = "20000000" ∧ n.Nbits = "1a01aa3d" ∧ n.Ntime = "5e000000" ∧
      n.CleanJobs = true :=
  C9_notify_fields { ID := 3, AuthID := 2, SubID := 1 }
    [("id", .null), ("method", .str "mining.notify"),
      ("params", .arr [.str "job", .str "prev", .str "cb1", .str "cb2",
        .arr [.str "ab", .str "cd"], .str "20000000", .str "1a01aa3d", .str "5e000000",
        .bool true, .num (.uint 7)])]
    0 "job" "prev" "cb1" "cb2" "20000000" "1a01aa3d" "5e000000" (.arr [.str "ab", .str "cd"])
    true [.num (.uint 7)] rfl (by decide) (by decide) rfl rfl rfl rfl

/-! ## C10: the merkle branches -/

/-- C10, as stated, fails: with pending IDs 1 and 2, the notification whose
params[4] is the array of strings `["ab","cd"]` decodes without error to a
notify payload whose MerkleBranches is empty, not `["ab","cd"]`. -/
theorem C10_merkle_branches_dropped :
    Unmarshal { ID := 3, AuthID := 2, SubID := 1 }
        (some (.obj [("id", .null), ("method", .str "mining.notify"),
          ("params", .arr [.str "job", .str "prev", .str "cb1", .str "cb2",
            .arr [.str "ab", .str "cd"], .str "20000000", .str "1a01aa3d", .str "5e000000",
            .bool true])]))
      = .ok (.notifyRes
          { JobID := "job", Hash := "prev", CoinbaseTX1 := "cb1", CoinbaseTX2 := "cb2",
            MerkleBranches := [], BlockVersion := "20000000", Nbits := "1a01aa3d",
            Ntime := "5e000000", CleanJobs := true }) ∧
    ([] : List String) ≠ ["ab", "cd"] :=
  ⟨rfl, by decide⟩

/-- C10, amended. For every session and every line that `Unmarshal` decodes
without error to a notify payload, the MerkleBranches field of that payload is
empty, whatever params[4] holds: position 4 is not read. -/
theorem C10_merkle_branches_empty (p : PoolHeightFetcher) (blob : Option JSON) (n : NotifyRes)
    (h : Unmarshal p blob = .ok (.notifyRes n)) : n.MerkleBranches = [] :=
  Unmarshal_notifyRes_merkle p blob n h

/-- C10, amended, on a notification whose params[4] is `["ab","cd"]`. -/
theorem C10_merkle_branches_empty_witness :
    ∃ n, Unmarshal { ID := 3, AuthID := 2, SubID := 1 }
        (some (.obj [("id", .num (.uint 9)), ("method", .str "mining.notify"),
          ("params", .arr [.str "job", .str "prev", .str "cb1", .str "cb2",
            .arr [.str "ab", .str "cd"], .str "20000000", .str "1a01aa3d", .str "5e000000",
            .bool false])]))
        = .ok (.notifyRes n) ∧ n.MerkleBranches = [] :=
  ⟨_, rfl, C10_merkle_branches_empty { ID := 3, AuthID := 2, SubID := 1 }
    (some (.obj [("id", .num (.uint 9)), ("method", .str "mining.notify"),
      ("params", .arr [.str "job", .str "prev", .str "cb1", .str "cb2",
        .arr [.str "ab", .str "cd"], .str "20000000", .str "1a01aa3d", .str "5e000000",
        .bool false])]))
    _ rfl⟩

/-! ## Shared lemmas for C11 and later -/

theorem expectedChanges_of_chain :
    ∀ (hs : List Int) (h0 : Int), List.Chain (fun a b => a ≠ b) h0 hs →
      expectedChanges h0 hs = (h0 :: hs).zip hs := by
  intro hs
  induction hs with
  | nil => intro h0 _; simp [expectedChanges]
  | cons h rest ih =>
    intro h0 hc
    rw [List.chain_cons] at hc
    rw [expectedChanges_cons, if_pos hc.1, ih h hc.2]
    simp [List.zip]

/-- On a JSON object whose id decodes to the pending subscribe ID and not to
the pending authorize ID, `Unmarshal` is the subscribe branch. -/
theorem Unmarshal_subscribe_id (p : PoolHeightFetcher) (ms : List (String × JSON)) (i : Nat)
    (hid : unmarshalUint64 (rawGet ms "id") = .ok i) (hA : i ≠ p.AuthID) (hS : i = p.SubID) :
    Unmarshal p (some (.obj ms)) = unmarshalSub ms := by
  simp [Unmarshal, unmarshalMessage, bind, Except.bind, hid, hA, hS ▸ hA, ← hS]

/-! ## C11: strictly increasing heights -/

/-- C11, as stated, fails: from Height State 0, the strictly increasing
heights 0, 1 produce one event, (0, 1), for two messages; the first message,
whose height equals the initial Height State, dispatches nothing. -/
theorem C11_first_height_zero_silent :
    (handleNotifySeq lengthParseHeight {}
        [.notifyRes { JobID := "" }, .notifyRes { JobID := "a" }]).2.map Notification.change
        = [(0, 1)] ∧
      (handleNotifyRes lengthParseHeight {} (.notifyRes { JobID := "" })).2 = [] := by
  decide

/-- C11, amended. For every sequence of notify messages whose heights are
extracted without error as a strictly increasing sequence `hs` whose first
height is not 0, processed from Height State 0, `handleNotifyRes` dispatches
one event for every message of the sequence, the first included: the events
are the pairs (previous height, height), starting with (0, first height). -/
theorem C11_increasing_heights (ParseHeight : HeightParser) (p : PoolHeightFetcher)
    (resps : List Reply) (hs : List Int) (h0 : p.Height = 0)
    (hok : resps.map (ParseHeight p.Param.CoinType) = hs.map (fun h => (h, none)))
    (hinc : hs.Chain' (fun a b => a < b)) (hfirst : hs.head? ≠ some 0) :
    (handleNotifySeq ParseHeight p resps).2.map Notification.change = (0 :: hs).zip hs ∧
      (handleNotifySeq ParseHeight p resps).2.length = resps.length := by
  have hmap : resps.map (fun r => (ParseHeight p.Param.CoinType r).1) = hs := by
    have h := congrArg (List.map Prod.fst) hok
    simpa [List.map_map, Function.comp_def] using h
  have hlen : resps.length = hs.length := by
    have h := congrArg List.length hok
    simpa using h
  have hchain : List.Chain (fun a b : Int => a ≠ b) 0 hs := by
    cases hs with
    | nil => exact List.Chain.nil
    | cons h rest =>
      have hne : (0 : Int) ≠ h := by
        intro e
        apply hfirst
        simp [← e]
      refine List.Chain.cons hne ?_
      exact List.Chain.imp (fun a b hab => ne_of_lt hab) hinc
  obtain ⟨h1, _⟩ := handleNotifySeq_spec ParseHeight p.Param.CoinType resps p rfl
  rw [h0, hmap, expectedChanges_of_chain hs 0 hchain] at h1
  refine ⟨h1, ?_⟩
  have h2 := congrArg List.length h1
  simp only [List.length_map, List.length_zip, List.length_cons] at h2
  omega

/-- C11, amended, on two notify messages with heights 100 and 101. -/
theorem C11_increasing_heights_witness :
    (handleNotifySeq sampleParseHeight {}
        [.notifyRes { JobID := "a" }, .notifyRes { JobID := "b" }]).2.map Notification.change
        = [(0, 100), (100, 101)] ∧
      (handleNotifySeq sampleParseHeight {}
        [.notifyRes { JobID := "a" }, .notifyRes { JobID := "b" }]).2.length = 2 :=
  C11_increasing_heights sampleParseHeight {}
    [.notifyRes { JobID := "a" }, .notifyRes { JobID := "b" }] [100, 101] rfl rfl
    (by simp) (by decide)

/-! ## C12: the subscribe reply -/

/-- C12, as stated, fails: with subscribe ID 1 and authorize ID 2, the line
`{"id":1,"result":[[],"7fcc4632",1e999],"error":null}`, whose `result` has a
string as second element and a number as third element, is rejected with the
decoder's error: `result` is decoded into a `[]interface{}` and `1e999` is
out of `float64` range. -/
theorem C12_length_out_of_float_range :
    Unmarshal { ID := 3, AuthID := 2, SubID := 1 }
        (some (.obj [("id", .num (.uint 1)),
          ("result", .arr [.arr [], .str "7fcc4632", .num (.other false 1 999)]),
          ("error", .null)]))
      = .error .jsonError :=
  rfl

/-- C12, amended. For every session whose pending subscribe ID is `m` and
whose pending authorize ID is not `m`, a line whose id decodes to `m` and
whose `result` is an array of at least three elements with a string `s` as
second element and a number `k` as third element, and which holds no number
literal out of `float64` range (`k` included), decodes without error to the
SubscribeReply with ExtraNonce1 = `s` and ExtraNonce2Length = `k`. -/
theorem C12_subscribe_reply_decodes (p : PoolHeightFetcher) (ms : List (String × JSON))
    (m : Nat) (x : JSON) (s : String) (k : JNumber) (rest : List JSON)
    (hS : p.SubID = m) (hA : p.AuthID ≠ m)
    (hid : unmarshalUint64 (rawGet ms "id") = .ok m)
    (hres : rawGet ms "result" = some (.arr (x :: .str s :: .num k :: rest)))
    (hx : x.floatsInRange = true) (hk : k.inFloat64Range = true)
    (hrest : floatsInRangeList rest = true) :
    Unmarshal p (some (.obj ms))
      = .ok (.subscribeReply { SubscribeID := "", ExtraNonce1 := s, ExtraNonce2Length := k }) := by
  rw [Unmarshal_subscribe_id p ms m hid (Ne.symm hA) hS.symm]
  simp [unmarshalSub, hres, unmarshalSlice, floatsInRangeList, JSON.floatsInRange, hx, hk,
    hrest, index, mustAssert, assertString, assertFloat64, bind, Except.bind, pure,
    Except.pure]

/-- C12, amended, on the line of the source comment, with subscribe ID 1 and
authorize ID 2: extra-nonce-1 "7fcc4632" and length 8. -/
theorem C12_subscribe_reply_decodes_witness :
    Unmarshal { ID := 3, AuthID := 2, SubID := 1 }
        (some (.obj [("id", .num (.uint 1)),
          ("result", .arr [.arr [.arr [.str "mining.set_difficulty", .str "7fcc4632"],
              .arr [.str "mining.notify", .str "7fcc4632"]],
            .str "7fcc4632", .num (.uint 8)]),
          ("error", .null)]))
      = .ok (.subscribeReply
          { SubscribeID := "", ExtraNonce1 := "7fcc4632", ExtraNonce2Length := .uint 8 }) :=
  C12_subscribe_reply_decodes { ID := 3, AuthID := 2, SubID := 1 }
    [("id", .num (.uint 1)),
      ("result", .arr [.arr [.arr [.str "mining.set_difficulty", .str "7fcc4632"],
          .arr [.str "mining.notify", .str "7fcc4632"]],
        .str "7fcc4632", .num (.uint 8)]),
      ("error", .null)]
    1 _ "7fcc4632" (.uint 8) [] rfl (by decide) rfl rfl rfl rfl rfl

/-! ## C13: a reconnect that succeeds within the first three dials -/

/-- C13. For every prior session state and every `N < 3`, if the first `N`
dial attempts of a reconnect fail and the next one succeeds, `Reconnect` makes
exactly `N + 1` calls of `net.Dial`, attaches the new connection and reader,
and sends a subscribe request with ID 1 and then an authorize request with
ID 2 on it: afterwards subscribe ID = 1, authorize ID = 2 and next request
ID = 3, whatever the IDs were before. -/
theorem C13_reconnect_resumes_handshake (net : Network) (s : Session) (N : Nat) (hN : N < 3)
    (hfail : ∀ k, k < N → net (s.dials + k) = false) (hok : net (s.dials + N) = true) :
    Reconnect net s = .ok
      { p := { s.p with
                Conn := some (s.dials + N), Reader := some (s.dials + N),
                SubID := 1, AuthID := 2, ID := 3 },
        dials := s.dials + (N + 1),
        trace := s.trace ++ [Event.reconnect]
          ++ (List.range N).map (fun k => Event.dial (s.dials + k) false)
          ++ [Event.dial (s.dials + N) true,
              Event.wrote (s.dials + N)
                { Method := "mining.subscribe", Params := ["b-miner"], ID := 1 },
              Event.wrote (s.dials + N)
                { Method := "mining.authorize",
                  Params := [s.p.Param.Username, s.p.Param.Password], ID := 2 }] } := by
  have h3 : Connect net 3 = connectFrom net 4 := rfl
  interval_cases N
  · have a0 : net s.dials = true := by simpa using hok
    simp [Reconnect, h3, connectFrom, Dial, a0, Subscribe, Auth, WriteConn, bind, Except.bind]
  · have a0 : net s.dials = false := by simpa using hfail 0 (by decide)
    have a1 : net (s.dials + 1) = true := hok
    simp [Reconnect, h3, connectFrom, Dial, a0, a1, Subscribe, Auth, WriteConn, bind,
      Except.bind, List.range_succ]
  · have a0 : net s.dials = false := by simpa using hfail 0 (by decide)
    have a1 : net (s.dials + 1) = false := hfail 1 (by decide)
    have a2 : net (s.dials + 1 + 1) = true := hok
    simp [Reconnect, h3, connectFrom, Dial, a0, a1, a2, Subscribe, Auth, WriteConn, bind,
      Except.bind, List.range_succ]

/-- C13 for a session that had IDs 9, 8, 7 and made one dial before: the
dials numbered 1 and 2 fail and dial 3 succeeds (`N = 2`). -/
theorem C13_reconnect_resumes_handshake_witness :
    Reconnect (fun k => decide (k = 3))
        { p := { Conn := some 0, Reader := some 0, ID := 9, AuthID := 8, SubID := 7 },
          dials := 1 }
      = .ok
        { p := { Conn := some 3, Reader := some 3, SubID := 1, AuthID := 2, ID := 3 },
          dials := 4,
          trace := [Event.reconnect, Event.dial 1 false, Event.dial 2 false, Event.dial 3 true,
            Event.wrote 3 { Method := "mining.subscribe", Params := ["b-miner"], ID := 1 },
            Event.wrote 3 { Method := "mining.authorize", Params := ["", ""], ID := 2 }] } :=
  C13_reconnect_resumes_handshake (fun k => decide (k = 3))
    { p := { Conn := some 0, Reader := some 0, ID := 9, AuthID := 8, SubID := 7 }, dials := 1 }
    2 (by decide) (by intro k hk; interval_cases k <;> rfl) rfl

/-! ## Shared lemmas on `Reconnect` -/

/-- Whatever the network does, `Reconnect` returns: it makes between one and
five dials, is counted once in the trace, and leaves a reader in place when
there was one. -/
theorem Reconnect_returns (net : Network) (s : Session) :
    ∃ s', Reconnect net s = .ok s' ∧ s.dials < s'.dials ∧ s'.dials ≤ s.dials + 5 ∧
      reconnectCount s'.trace = reconnectCount s.trace + 1 ∧
      (s.p.Reader ≠ none → s'.p.Reader ≠ none) := by
  have h3 : Connect net 3 = connectFrom net 4 := rfl
  by_cases a0 : net s.dials = true
  · simp [Reconnect, h3, connectFrom, Dial, a0, Subscribe, Auth, WriteConn, bind, Except.bind,
      reconnectCount, List.count_append, List.count_cons]
  · by_cases a1 : net (s.dials + 1) = true
    · simp [Reconnect, h3, connectFrom, Dial, a0, a1, Subscribe, Auth, WriteConn, bind,
        Except.bind, reconnectCount, List.count_append, List.count_cons]
      omega
    · by_cases a2 : net (s.dials + 1 + 1) = true
      · simp [Reconnect, h3, connectFrom, Dial, a0, a1, a2, Subscribe, Auth, WriteConn, bind,
          Except.bind, reconnectCount, List.count_append, List.count_cons]
        omega
      · by_cases a3 : net (s.dials + 1 + 1 + 1) = true
        · simp [Reconnect, h3, connectFrom, Dial, a0, a1, a2, a3, Subscribe, Auth, WriteConn,
            bind, Except.bind, reconnectCount, List.count_append, List.count_cons]
          omega
        · by_cases a4 : net (s.dials + 1 + 1 + 1 + 1) = true
          · simp [Reconnect, h3, connectFrom, Dial, a0, a1, a2, a3, a4, reconnectCount,
              List.count_append, List.count_cons]
            omega
          · simp [Reconnect, h3, connectFrom, Dial, a0, a1, a2, a3, a4, reconnectCount,
              List.count_append, List.count_cons]
            omega

/-- When every dial fails, `Reconnect` makes five dials and gives up, keeping
the reader it had. -/
theorem Reconnect_all_fail (net : Network) (s : Session) (hdead : ∀ k, net k = false) :
    Reconnect net s = .ok
      { p := { s.p with Conn := none, ID := 1, AuthID := 2 },
        dials := s.dials + 5,
        trace := s.trace ++ [Event.reconnect, Event.dial s.dials false,
          Event.dial (s.dials + 1) false, Event.dial (s.dials + 2) false,
          Event.dial (s.dials + 3) false, Event.dial (s.dials + 4) false, Event.gaveUp] } := by
  have h3 : Connect net 3 = connectFrom net 4 := rfl
  simp [Reconnect, h3, connectFrom, Dial, hdead]

/-- One iteration of `Listen` on a session that has a reader. -/
theorem listenStep_with_reader (net : Network) (ParseHeight : HeightParser) (s : Session)
    (r : ReadResult) (hr : s.p.Reader ≠ none) :
    listenStep net ParseHeight s r =
      match r with
      | .eof => Reconnect net s
      | .ioError => .ok s
      | .line blob => processLine ParseHeight s blob := by
  cases hR : s.p.Reader with
  | none => exact absurd hR hr
  | some c =>
    simp only [listenStep, hR, bind, Except.bind, pure, Except.pure]
    simp [hR]

/-! ## C14: a reconnect on which every dial fails -/

/-- C14. On a network where every dial fails, `Reconnect`, from a session
that made one dial before, calls `net.Dial` five times (the dials numbered 1
to 5), not four, before it gives up; it sends neither a subscribe nor an
authorize request. -/
theorem C14_reconnect_dials_five_times :
    Reconnect deadNetwork
        { p := { Conn := some 0, Reader := some 0, ID := 3, AuthID := 2, SubID := 1 },
          dials := 1 }
      = .ok
        { p := { Conn := none, Reader := some 0, ID := 1, AuthID := 2, SubID := 1 },
          dials := 6,
          trace := [Event.reconnect, Event.dial 1 false, Event.dial 2 false, Event.dial 3 false,
            Event.dial 4 false, Event.dial 5 false, Event.gaveUp] } :=
  rfl

/-! ## C15: the request IDs of a handshake -/

/-- C15, as stated, fails: increments of the `uint64` next ID wrap at `2^64`.
With next ID `2^64 - 1`, `Subscribe` followed by `Auth` issues subscribe ID
`2^64 - 1` and authorize ID 0 and leaves the next ID at 1, so the authorize ID
is below the subscribe ID. -/
theorem C15_ids_wrap_around :
    (Subscribe { p := { Conn := some 0, Reader := some 0, ID := 2 ^ 64 - 1 }, dials := 1 }
        >>= Auth)
      = .ok
        { p := { Conn := some 0, Reader := some 0,
                 SubID := 2 ^ 64 - 1, AuthID := 0, ID := 1 },
          dials := 1,
          trace := [Event.wrote 0
              { Method := "mining.subscribe", Params := ["b-miner"], ID := 2 ^ 64 - 1 },
            Event.wrote 0 { Method := "mining.authorize", Params := ["", ""], ID := 0 }] } :=
  rfl

/-- C15, amended. For every connected session whose next request ID is a
`uint64` value `n`, `Subscribe` followed by `Auth` issues subscribe ID `n` and
authorize ID `n + 1` modulo `2^64` and leaves the next ID at `n + 2` modulo
`2^64`; the pending subscribe and authorize IDs are never equal; and when
`n + 2 < 2^64` the IDs are `n`, `n + 1`, `n + 2`, so that subscribe ID <
authorize ID < next ID. -/
theorem C15_handshake_ids (s : Session) (c n : Nat) (hc : s.p.Conn = some c)
    (hn : s.p.ID = n) (hlt : n < 2 ^ 64) :
    ∃ s', (Subscribe s >>= Auth) = .ok s' ∧
      s'.p.SubID = n ∧ s'.p.AuthID = (n + 1) % 2 ^ 64 ∧ s'.p.ID = (n + 2) % 2 ^ 64 ∧
      s'.p.SubID ≠ s'.p.AuthID ∧
      (n + 2 < 2 ^ 64 →
        s'.p.AuthID = n + 1 ∧ s'.p.ID = n + 2 ∧ s'.p.SubID < s'.p.AuthID ∧
          s'.p.AuthID < s'.p.ID) := by
  subst hn
  refine ⟨_, by simp [Subscribe, Auth, WriteConn, hc, bind, Except.bind]; rfl, ?_⟩
  have hlt' : s.p.ID < 18446744073709551616 := by simpa using hlt
  refine ⟨rfl, ?_, ?_, ?_, ?_⟩
  · norm_num
  · norm_num
  · show s.p.ID ≠ (s.p.ID + 1) % 18446744073709551616
    omega
  · intro h
    have h' : s.p.ID + 2 < 18446744073709551616 := by simpa using h
    show (s.p.ID + 1) % 18446744073709551616 = s.p.ID + 1 ∧
      (s.p.ID + 1 + 1) % 18446744073709551616 = s.p.ID + 2 ∧
      s.p.ID < (s.p.ID + 1) % 18446744073709551616 ∧
      (s.p.ID + 1) % 18446744073709551616 < (s.p.ID + 1 + 1) % 18446744073709551616
    omega

/-- C15, amended, on a connected session whose next ID is 1. -/
theorem C15_handshake_ids_witness :
    ∃ s', (Subscribe { p := { Conn := some 0, Reader := some 0, ID := 1 }, dials := 1 }
        >>= Auth) = .ok s' ∧
      s'.p.SubID = 1 ∧ s'.p.AuthID = (1 + 1) % 2 ^ 64 ∧ s'.p.ID = (1 + 2) % 2 ^ 64 ∧
      s'.p.SubID ≠ s'.p.AuthID ∧
      (1 + 2 < 2 ^ 64 →
        s'.p.AuthID = 1 + 1 ∧ s'.p.ID = 1 + 2 ∧ s'.p.SubID < s'.p.AuthID ∧
          s'.p.AuthID < s'.p.ID) :=
  C15_handshake_ids { p := { Conn := some 0, Reader := some 0, ID := 1 }, dials := 1 }
    0 1 rfl rfl (by decide)

/-! ## C16: read errors in the loop of `Listen` -/

/-- C16, as stated, fails: on a session that has a reader, two iterations
whose reads both fail with an I/O error other than end-of-stream leave the
session as it was: no `Reconnect`, no dial, and the second read is made on the
same reader. -/
theorem C16_io_error_no_reconnect :
    listenRun deadNetwork sampleParseHeight
        { p := { Conn := some 0, Reader := some 0, ID := 3, AuthID := 2, SubID := 1 },
          dials := 1 }
        [.ioError, .ioError]
      = .ok
        { p := { Conn := some 0, Reader := some 0, ID := 3, AuthID := 2, SubID := 1 },
          dials := 1, trace := [] } :=
  rfl

/-- C16, amended. In one iteration of the loop of `Listen` on a session that
has a reader, a read that fails with end-of-stream makes the session call
`Reconnect` (once, with at least one dial) before it reads again, while a read
that fails with any other I/O error is only logged: the session is left
unchanged and the next read uses the same reader. -/
theorem C16_eof_reconnects (net : Network) (ParseHeight : HeightParser) (s : Session)
    (hr : s.p.Reader ≠ none) :
    (listenStep net ParseHeight s .eof = Reconnect net s ∧
      ∃ s', listenStep net ParseHeight s .eof = .ok s' ∧ s.dials < s'.dials ∧
        reconnectCount s'.trace = reconnectCount s.trace + 1) ∧
    listenStep net ParseHeight s .ioError = .ok s := by
  have e1 := listenStep_with_reader net ParseHeight s .eof hr
  have e2 := listenStep_with_reader net ParseHeight s .ioError hr
  obtain ⟨s', h1, h2, _, h4, _⟩ := Reconnect_returns net s
  exact ⟨⟨e1, s', e1.trans h1, h2, h4⟩, e2⟩

/-- C16, amended, on a session with a reader and a network whose next dial
succeeds. -/
theorem C16_eof_reconnects_witness :
    (listenStep (fun _ => true) sampleParseHeight
        { p := { Conn := some 0, Reader := some 0, ID := 3, AuthID := 2, SubID := 1 },
          dials := 1 } .eof
      = Reconnect (fun _ => true)
        { p := { Conn := some 0, Reader := some 0, ID := 3, AuthID := 2, SubID := 1 },
          dials := 1 } ∧
      ∃ s', listenStep (fun _ => true) sampleParseHeight
          { p := { Conn := some 0, Reader := some 0, ID := 3, AuthID := 2, SubID := 1 },
            dials := 1 } .eof = .ok s' ∧
        1 < s'.dials ∧ reconnectCount s'.trace = reconnectCount [] + 1) ∧
    listenStep (fun _ => true) sampleParseHeight
        { p := { Conn := some 0, Reader := some 0, ID := 3, AuthID := 2, SubID := 1 },
          dials := 1 } .ioError
      = .ok { p := { Conn := some 0, Reader := some 0, ID := 3, AuthID := 2, SubID := 1 },
              dials := 1 } :=
  C16_eof_reconnects (fun _ => true) sampleParseHeight
    { p := { Conn := some 0, Reader := some 0, ID := 3, AuthID := 2, SubID := 1 }, dials := 1 }
    (by decide)

/-! ## C17: a dial that succeeds on the last attempt -/

/-- C17. On a network where the first four dials fail and the fifth succeeds,
`Reconnect` replaces the connection and the reader by those of the fifth dial,
yet `Connect` reports the error "limit": `Reconnect` gives up and sends
neither a subscribe nor an authorize request on the new connection, and the
subscribe ID keeps its old value. -/
theorem C17_last_dial_success_discarded :
    Reconnect fifthDialNetwork
        { p := { Conn := some 9, Reader := some 9, ID := 3, AuthID := 2, SubID := 1 },
          dials := 0 }
      = .ok
        { p := { Conn := some 4, Reader := some 4, ID := 1, AuthID := 2, SubID := 1 },
          dials := 5,
          trace := [Event.reconnect, Event.dial 0 false, Event.dial 1 false, Event.dial 2 false,
            Event.dial 3 false, Event.dial 4 true, Event.gaveUp] } ∧
    (Connect fifthDialNetwork 3
        { p := { Conn := some 9, Reader := some 9, ID := 1, AuthID := 2, SubID := 1 },
          dials := 0 }).2 = false :=
  ⟨rfl, rfl⟩

/-! ## C18: lines that are not notify payloads -/

/-- C18. On a session that has a reader, an iteration of `Listen` that reads
a line which `Unmarshal` rejects with an error, or decodes to anything but a
notify payload (an AuthorizeReply, a SubscribeReply, a SetDifficulty message
or an UnrecognizedEnvelope), leaves the whole session unchanged: Height State,
next ID, subscribe ID and authorize ID keep their values, nothing is
dispatched, no `Reconnect` and no dial is made. Conversely an iteration on a
line that ends in a different session state has decoded a notify payload.
`Unmarshal` itself is a function of the session and the line and returns no
new session. -/
theorem C18_non_notify_line_frame (net : Network) (ParseHeight : HeightParser) (s : Session)
    (blob : Option JSON) (hr : s.p.Reader ≠ none) :
    ((∀ n, Unmarshal s.p blob ≠ .ok (.notifyRes n)) →
      (∀ e, Unmarshal s.p blob = .error e → e.isPanic = false) →
      listenStep net ParseHeight s (.line blob) = .ok s) ∧
    (∀ s', listenStep net ParseHeight s (.line blob) = .ok s' → s' ≠ s →
      ∃ n, Unmarshal s.p blob = .ok (.notifyRes n)) := by
  rw [listenStep_with_reader net ParseHeight s (.line blob) hr]
  simp only [processLine]
  cases hU : Unmarshal s.p blob with
  | error e =>
    constructor
    · intro _ hpanic
      simp [hpanic e rfl]
    · intro s' h hne
      by_cases hp : e.isPanic = true
      · simp [hp] at h
      · simp [hp] at h
        exact absurd h.symm hne
  | ok r =>
    cases r with
    | notifyRes n =>
      constructor
      · intro hno
        exact absurd rfl (hno n)
      · intro _ _ _
        exact ⟨n, rfl⟩
    | basicReply _ =>
      exact ⟨fun _ _ => rfl, fun s' h hne => absurd (by simpa using h.symm) hne⟩
    | subscribeReply _ =>
      exact ⟨fun _ _ => rfl, fun s' h hne => absurd (by simpa using h.symm) hne⟩
    | stratumMsg _ =>
      exact ⟨fun _ _ => rfl, fun s' h hne => absurd (by simpa using h.symm) hne⟩
    | stratumRsp _ =>
      exact ⟨fun _ _ => rfl, fun s' h hne => absurd (by simpa using h.symm) hne⟩

/-- C18 on the authorize acknowledgement `{"id":2,"result":true,"error":null}`
read by a session with pending IDs 1 and 2 and Height State 100. -/
theorem C18_non_notify_line_frame_witness :
    listenStep deadNetwork sampleParseHeight
        { p := { Conn := some 0, Reader := some 0, Height := 100, ID := 3, AuthID := 2,
                 SubID := 1 },
          dials := 1 }
        (.line (some (.obj [("id", .num (.uint 2)), ("result", .bool true),
          ("error", .null)])))
      = .ok
        { p := { Conn := some 0, Reader := some 0, Height := 100, ID := 3, AuthID := 2,
                 SubID := 1 },
          dials := 1 } :=
  (C18_non_notify_line_frame deadNetwork sampleParseHeight
    { p := { Conn := some 0, Reader := some 0, Height := 100, ID := 3, AuthID := 2,
             SubID := 1 },
      dials := 1 }
    (some (.obj [("id", .num (.uint 2)), ("result", .bool true), ("error", .null)]))
    (by decide)).1
    (fun n h => by cases h) (fun e h => by cases h)

/-! ## C19: after a reconnect has given up -/

/-- C19, as stated, fails: on a network where every dial fails, a session
with a reader whose reads return end-of-stream twice gives up a first
reconnect after the dials 1 to 5 and then, at the second end-of-stream, calls
`Reconnect` again and makes the dials 6 to 10. -/
theorem C19_reconnects_after_give_up :
    listenRun deadNetwork sampleParseHeight
        { p := { Conn := some 0, Reader := some 0, ID := 3, AuthID := 2, SubID := 1 },
          dials := 1 }
        [.eof, .eof]
      = .ok
        { p := { Conn := none, Reader := some 0, ID := 1, AuthID := 2, SubID := 1 },
          dials := 11,
          trace := [Event.reconnect, Event.dial 1 false, Event.dial 2 false, Event.dial 3 false,
            Event.dial 4 false, Event.dial 5 false, Event.gaveUp,
            Event.reconnect, Event.dial 6 false, Event.dial 7 false, Event.dial 8 false,
            Event.dial 9 false, Event.dial 10 false, Event.gaveUp] } :=
  rfl

/-- C19, amended. Giving up is not terminal. On a network where every dial
fails, a reconnect of a session that has a reader makes five dials, gives up
and keeps the reader; in the state it leaves, an iteration of `Listen` whose
read returns end-of-stream calls `Reconnect` again and makes five more dials,
while an iteration whose read fails with another I/O error makes no dial and
leaves the session unchanged. -/
theorem C19_give_up_not_terminal (net : Network) (ParseHeight : HeightParser) (s : Session)
    (hr : s.p.Reader ≠ none) (hdead : ∀ k, net k = false) :
    ∃ s1 s2, Reconnect net s = .ok s1 ∧ s1.trace.getLast? = some Event.gaveUp ∧
      s1.dials = s.dials + 5 ∧ s1.p.Reader = s.p.Reader ∧
      listenStep net ParseHeight s1 .eof = .ok s2 ∧
      s2.dials = s1.dials + 5 ∧ reconnectCount s2.trace = reconnectCount s1.trace + 1 ∧
      listenStep net ParseHeight s1 .ioError = .ok s1 := by
  obtain ⟨s1, hs1⟩ : ∃ s1 : Session, s1 =
      { p := { s.p with Conn := none, ID := 1, AuthID := 2 },
        dials := s.dials + 5,
        trace := s.trace ++ [Event.reconnect, Event.dial s.dials false,
          Event.dial (s.dials + 1) false, Event.dial (s.dials + 2) false,
          Event.dial (s.dials + 3) false, Event.dial (s.dials + 4) false, Event.gaveUp] } :=
    ⟨_, rfl⟩
  have h1 : Reconnect net s = .ok s1 := by rw [hs1]; exact Reconnect_all_fail net s hdead
  have hr1 : s1.p.Reader ≠ none := by rw [hs1]; exact hr
  have h2 := Reconnect_all_fail net s1 hdead
  refine ⟨s1,
    { p := { s1.p with Conn := none, ID := 1, AuthID := 2 },
      dials := s1.dials + 5,
      trace := s1.trace ++ [Event.reconnect, Event.dial s1.dials false,
        Event.dial (s1.dials + 1) false, Event.dial (s1.dials + 2) false,
        Event.dial (s1.dials + 3) false, Event.dial (s1.dials + 4) false, Event.gaveUp] },
    h1, ?_, ?_, ?_, ?_, rfl, ?_, ?_⟩
  · rw [hs1]; simp
  · rw [hs1]
  · rw [hs1]
  · rw [listenStep_with_reader net ParseHeight s1 .eof hr1]
    exact h2
  · simp [reconnectCount, List.count_append, List.count_cons]
  · exact listenStep_with_reader net ParseHeight s1 .ioError hr1

/-- C19, amended, on a session with a reader that made one dial before. -/
theorem C19_give_up_not_terminal_witness :
    ∃ s1 s2, Reconnect deadNetwork
        { p := { Conn := some 0, Reader := some 0, ID := 3, AuthID := 2, SubID := 1 },
          dials := 1 } = .ok s1 ∧
      s1.trace.getLast? = some Event.gaveUp ∧
      s1.dials = 1 + 5 ∧ s1.p.Reader = some 0 ∧
      listenStep deadNetwork sampleParseHeight s1 .eof = .ok s2 ∧
      s2.dials = s1.dials + 5 ∧ reconnectCount s2.trace = reconnectCount s1.trace + 1 ∧
      listenStep deadNetwork sampleParseHeight s1 .ioError = .ok s1 :=
  C19_give_up_not_terminal deadNetwork sampleParseHeight
    { p := { Conn := some 0, Reader := some 0, ID := 3, AuthID := 2, SubID := 1 }, dials := 1 }
    (by decide) (fun _ => rfl)

end StratumMonitor
